import Mathlib

/-!
Shallow embedding of the doorlock controller
(`src/server/doorlock/doorlock.ino`, `src/server/doorlock/utils.h`,
`src/server/doorlock/myservo.hpp`, plus the five-sample variant of
`analogReadStable` from `src/doorlock/utils.h`), together with theorems
checking the natural-language specification against it.

Machine integers are modelled as `Nat`/`Int`; `unsigned long` arithmetic is
taken modulo 2^32 where wraparound can matter (`millis - startTime`, the
conversion of a parsed `long` to `unsigned long`).
-/

namespace Doorlock

/-- FSM state enum, from `enum State` in doorlock.ino. -/
inductive State
  | CALIBRATE_LOCK
  | CALIBRATE_UNLOCK
  | UNLOCK
  | LOCK
  | BUSY_WAIT
  | BUSY_MOVE
  | BAD
deriving DecidableEq, Repr

/-- Command enum, from `enum Command` in doorlock.ino. -/
inductive Command
  | NONE
  | LOCK_CMD
  | UNLOCK_CMD
deriving DecidableEq, Repr

/-- Request enum, from `enum Request` in doorlock.ino. -/
inductive Request
  | EMPTY
  | UNRECOGNIZED
  | STATUS
  | OPTIONS
  | LOCK_REQ
  | UNLOCK_REQ
deriving DecidableEq, Repr

open State Command Request

/-- `requestToCommand` from doorlock.ino. -/
def requestToCommand (req : Request) : Command :=
  match req with
  | EMPTY => NONE
  | UNRECOGNIZED => NONE
  | STATUS => NONE
  | OPTIONS => NONE
  | LOCK_REQ => LOCK_CMD
  | UNLOCK_REQ => UNLOCK_CMD

/-- `struct FSMState` from doorlock.ino: current state, calibrated angles,
move start time (`unsigned long`, modelled as `Nat`), current command. -/
structure FSMState where
  currentState : State
  lockDeg : Int
  unlockDeg : Int
  startTime : Nat
  curCmd : Command
deriving DecidableEq, Repr

/-- Move timeout in milliseconds, `const unsigned long TOL = 5000`. -/
def TOL : Nat := 5000

/-- `const int LOCK_ANGLE = 110`. -/
def LOCK_ANGLE : Int := 110

/-- `const int UNLOCK_ANGLE = 40`. -/
def UNLOCK_ANGLE : Int := 40

/-- `const int ANGLE_TOLERANCE = 5`. -/
def ANGLE_TOLERANCE : Int := 5

/-- `const unsigned long REPLAY_WINDOW = 5`. -/
def REPLAY_WINDOW : Nat := 5

/-- Model of the `MyServo` actuator (myservo.hpp): whether the switched
supply line / pulse generator is attached, and the last written target. -/
structure Servo where
  attached : Bool
  lastWrite : Option Int
deriving DecidableEq, Repr

/-- `MyServo::attachAndWrite`: energise and command the target angle. -/
def Servo.attachAndWrite (_sv : Servo) (deg : Int) : Servo :=
  { attached := true, lastWrite := some deg }

/-- `MyServo::detach`: release the supply line (idempotent). -/
def Servo.detach (sv : Servo) : Servo :=
  { sv with attached := false }

/-- `stateToString` from doorlock.ino. -/
def stateToString (st : State) : String :=
  match st with
  | CALIBRATE_LOCK => "CALIBRATE_LOCK"
  | CALIBRATE_UNLOCK => "CALIBRATE_UNLOCK"
  | UNLOCK => "UNLOCK"
  | LOCK => "LOCK"
  | BUSY_WAIT => "BUSY_WAIT"
  | BUSY_MOVE => "BUSY_MOVE"
  | BAD => "BAD"

/-- `isAtUnlock(deg, tol)` from doorlock.ino:
`deg <= fsmState.unlockDeg + tol`. -/
def isAtUnlock (fs : FSMState) (deg tol : Int) : Bool :=
  deg ≤ fs.unlockDeg + tol

/-- `isAtLock(deg, tol)` from doorlock.ino:
`deg >= fsmState.lockDeg - tol`. -/
def isAtLock (fs : FSMState) (deg tol : Int) : Bool :=
  deg ≥ fs.lockDeg - tol

/-- Unsigned 32-bit subtraction, modelling `millis - fsmState.startTime`
on `unsigned long` operands. -/
def wsub (a b : Nat) : Nat :=
  (a % 4294967296 + (4294967296 - b % 4294967296)) % 4294967296

/-- `fsmTransition(deg, millis, button, cmd)` from doorlock.ino, for the
production build (the `#ifndef UNIT_TEST` servo calls are included).  The
global `fsmState` and `myservo` are passed and returned explicitly.  The
`button` parameter is declared in the source and never read. -/
def fsmTransition (fs : FSMState) (sv : Servo) (deg : Int) (millis : Nat)
    (button : Command) (cmd : Command) : FSMState × Servo :=
  match fs.currentState with
  | CALIBRATE_LOCK =>
      ({ fs with lockDeg := deg, currentState := CALIBRATE_UNLOCK }, sv)
  | CALIBRATE_UNLOCK =>
      ({ fs with unlockDeg := deg, currentState := UNLOCK }, sv)
  | UNLOCK =>
      if isAtUnlock fs deg ANGLE_TOLERANCE ∧ cmd = LOCK_CMD then
        ({ fs with currentState := BUSY_MOVE, startTime := millis, curCmd := cmd },
         sv.attachAndWrite fs.lockDeg)
      else if isAtLock fs deg ANGLE_TOLERANCE then
        ({ fs with currentState := LOCK }, sv)
      else if ¬ isAtLock fs deg ANGLE_TOLERANCE ∧ ¬ isAtUnlock fs deg ANGLE_TOLERANCE then
        ({ fs with currentState := BUSY_WAIT }, sv)
      else
        (fs, sv)
  | LOCK =>
      if isAtLock fs deg ANGLE_TOLERANCE ∧ cmd = UNLOCK_CMD then
        ({ fs with currentState := BUSY_MOVE, startTime := millis, curCmd := cmd },
         sv.attachAndWrite fs.unlockDeg)
      else if isAtUnlock fs deg ANGLE_TOLERANCE then
        ({ fs with currentState := UNLOCK }, sv)
      else if ¬ isAtLock fs deg ANGLE_TOLERANCE ∧ ¬ isAtUnlock fs deg ANGLE_TOLERANCE then
        ({ fs with currentState := BUSY_WAIT }, sv)
      else
        (fs, sv)
  | BUSY_WAIT =>
      if isAtUnlock fs deg ANGLE_TOLERANCE then
        ({ fs with currentState := UNLOCK }, sv)
      else if isAtLock fs deg ANGLE_TOLERANCE then
        ({ fs with currentState := LOCK }, sv)
      else
        (fs, sv)
  | BUSY_MOVE =>
      if wsub millis fs.startTime > TOL then
        ({ fs with currentState := BAD }, sv.detach)
      else if fs.curCmd = UNLOCK_CMD ∧ isAtUnlock fs deg 0 then
        ({ fs with currentState := UNLOCK, curCmd := NONE }, sv.detach)
      else if fs.curCmd = LOCK_CMD ∧ isAtLock fs deg 0 then
        ({ fs with currentState := LOCK, curCmd := NONE }, sv.detach)
      else
        (fs, sv)
  | BAD =>
      (fs, sv.detach)

/-- One tick's inputs to the FSM: position, wall clock, button flag, command. -/
structure TickInput where
  deg : Int
  millis : Nat
  button : Command
  cmd : Command
deriving DecidableEq, Repr

/-- Iterated `fsmTransition` over a sequence of tick inputs. -/
def runTicks : FSMState × Servo → List TickInput → FSMState × Servo
  | p, [] => p
  | (fs, sv), t :: ts => runTicks (fsmTransition fs sv t.deg t.millis t.button t.cmd) ts

/-- The FSM state installed by the production `setup()`:
`{CALIBRATE_LOCK, LOCK_ANGLE, UNLOCK_ANGLE, 0, NONE}`. -/
def initialFsmState : FSMState :=
  { currentState := CALIBRATE_LOCK
    lockDeg := LOCK_ANGLE
    unlockDeg := UNLOCK_ANGLE
    startTime := 0
    curCmd := NONE }

/-- A detached servo, used as a concrete starting actuator state. -/
def servo0 : Servo := { attached := false, lastWrite := none }

end Doorlock

namespace Doorlock

open State Command Request

/-- `hexCharToValue` from doorlock.ino: value 0-15, or -1 on a non-hex char. -/
def hexCharToValue (c : Char) : Int :=
  if '0' ≤ c ∧ c ≤ '9' then (c.toNat : Int) - ('0'.toNat : Int)
  else if 'a' ≤ c ∧ c ≤ 'f' then (c.toNat : Int) - ('a'.toNat : Int) + 10
  else if 'A' ≤ c ∧ c ≤ 'F' then (c.toNat : Int) - ('A'.toNat : Int) + 10
  else -1

/-- The pairwise digit loop of `hexToBytes`: each byte is
`(high << 4) | low`, failing if either nibble is invalid or a char is
left over. -/
def hexPairsToBytes : List Char → Option (List Nat)
  | [] => some []
  | [_] => none
  | c1 :: c2 :: rest =>
    let high := hexCharToValue c1
    let low := hexCharToValue c2
    if high < 0 ∨ low < 0 then none
    else
      match hexPairsToBytes rest with
      | none => none
      | some bs => some (((high.toNat <<< 4) ||| low.toNat) :: bs)

/-- `hexToBytes(hex, output, outputLen)` from doorlock.ino: `none` models
returning false (invalid length or non-hex character). -/
def hexToBytes (hex : String) (outputLen : Nat) : Option (List Nat) :=
  if hex.length = outputLen * 2 then hexPairsToBytes hex.data else none

/-- `constantTimeCompare` from doorlock.ino: OR-accumulate the XOR of each
byte pair, succeed iff the accumulator is zero. -/
def constantTimeCompare (a b : List Nat) : Bool :=
  (List.zipWith (fun x y => Nat.xor x y) a b).foldl (fun r x => Nat.lor r x) 0 == 0

/-- C `isspace` for the leading-whitespace skip of `atol`. -/
def isCSpace (c : Char) : Bool :=
  c = ' ' ∨ c = '\t' ∨ c = '\n' ∨ c = '\x0b' ∨ c = '\x0c' ∨ c = '\r'

/-- Digit-accumulation loop of `atol`: consume leading decimal digits. -/
def atolDigits : List Char → Int → Int
  | [], acc => acc
  | c :: cs, acc =>
    if c.isDigit then atolDigits cs (acc * 10 + ((c.toNat : Int) - 48))
    else acc

/-- `atol` as called by Arduino `String::toInt()`: skip whitespace, take an
optional sign, then consume leading decimal digits (0 if there are none).
Trailing non-digit characters are ignored. -/
def atol (s : String) : Int :=
  match s.data.dropWhile isCSpace with
  | '-' :: rest => - atolDigits rest 0
  | '+' :: rest => atolDigits rest 0
  | rest => atolDigits rest 0

/-- Conversion of the `long` returned by `toInt()` to the `unsigned long`
`requestTimestamp` (two's complement, modulo 2^32). -/
def toULong (i : Int) : Nat := (i % 4294967296).toNat

/-- The parsed nonce value `requestTimestamp = nonce.toInt()` in
`verifyAuthentication`. -/
def requestTimestamp (nonce : String) : Nat := toULong (atol nonce)

/-- `verifyAuthentication(nonce, signature)` from doorlock.ino, for the
production build (no `SKIP_AUTH`).  The HMAC-SHA256 primitive (BearSSL) is
abstracted as the function argument `hmac`; the EEPROM slot holding the
last accepted nonce is passed in as `lastTimestamp` and the stored value
after the call is returned alongside the boolean result. -/
def verifyAuthentication (hmac : String → List Nat) (nonce signature : String)
    (lastTimestamp : Nat) : Bool × Nat :=
  let reqTs := requestTimestamp nonce
  if reqTs = 0 ∧ nonce ≠ "0" then
    (false, lastTimestamp)
  else if reqTs ≤ max 5 lastTimestamp - 5 then
    (false, lastTimestamp)
  else
    let expectedHMAC := hmac nonce
    match hexToBytes signature 32 with
    | none => (false, lastTimestamp)
    | some receivedHMAC =>
      if constantTimeCompare expectedHMAC receivedHMAC then
        (true, reqTs)
      else
        (false, lastTimestamp)

/-- `respondRequest(client, req, st)` from doorlock.ino, modelled as the
(status code, body) pair written to the client; `none` for `EMPTY`
(no response at all). -/
def respondRequest (req : Request) (st : State) : Option (Nat × String) :=
  if req = EMPTY then none
  else if req = OPTIONS then some (204, "")
  else if req = LOCK_REQ ∧ (st = LOCK ∨ st = BUSY_MOVE) then some (200, stateToString st)
  else if req = UNLOCK_REQ ∧ (st = UNLOCK ∨ st = BUSY_MOVE) then some (200, stateToString st)
  else if req = UNRECOGNIZED then some (403, "")
  else if req = STATUS then some (200, stateToString st)
  else some (503, stateToString st)

/-- One iteration of the production `loop()` after the request has been
classified: run the FSM transition on the tick's inputs and respond using
the post-transition state. -/
def loopTick (fs : FSMState) (sv : Servo) (req : Request) (deg : Int)
    (millis : Nat) : (FSMState × Servo) × Option (Nat × String) :=
  let cmd := requestToCommand req
  let next := fsmTransition fs sv deg millis NONE cmd
  (next, respondRequest req next.1.currentState)

/-- A constant HMAC oracle producing 32 zero bytes, used for closed-instance
evaluations. -/
def hmacZeros : String → List Nat := fun _ => List.replicate 32 0

/-- The 64-character all-zero hex signature, matching `hmacZeros`. -/
def zeroSignature : String := String.mk (List.replicate 64 '0')

end Doorlock

namespace Doorlock

open State Command Request

/-- `bubbleSort` from utils.h (in-place bubble sort of an int array). -/
def bubbleSort (arr : Array Int) : Array Int := Id.run do
  let mut a := arr
  let n := a.size
  for i in [0:n-1] do
    for j in [0:n-1-i] do
      if a[j]! > a[j+1]! then
        let tmp := a[j+1]!
        a := a.set! (j+1) a[j]!
        a := a.set! j tmp
  return a

/-- `analogReadStable` from `src/server/doorlock/utils.h`: take `LEN = 9`
raw readings in succession (modelled by the stream `readings`), bubble-sort
them, and return `(v[1] + v[2] + v[3]) / 3`. -/
def analogReadStable (readings : Nat → Int) : Int :=
  let v := ((List.range 9).map readings).toArray
  let s := bubbleSort v
  (s[1]! + s[2]! + s[3]!) / 3

/-- `analogReadStable` from the `src/doorlock/utils.h` variant: `LEN = 5`
raw readings, bubble-sorted, returning `(v[1] + v[2] + v[3]) / 3` — which
for five samples is the mean of the middle three after dropping the
highest and lowest. -/
def analogReadStable5 (readings : Nat → Int) : Int :=
  let v := ((List.range 5).map readings).toArray
  let s := bubbleSort v
  (s[1]! + s[2]! + s[3]!) / 3

end Doorlock

namespace Doorlock

open State Command Request

lemma fsmTransition_from_bad (fs : FSMState) (sv : Servo) (deg : Int) (millis : Nat)
    (button cmd : Command) (h : fs.currentState = BAD) :
    (fsmTransition fs sv deg millis button cmd).1.currentState = BAD := by
  obtain ⟨st, ld, ud, t, c⟩ := fs
  dsimp only at h
  subst h
  rfl

/-- Claim C4: `Bad` is absorbing: for every input tuple, a single
`fsmTransition` from `Bad` stays in `Bad`, and hence every sequence of
ticks within one power-on stays in `Bad`. -/
theorem bad_state_absorbing :
    (∀ (fs : FSMState) (sv : Servo) (deg : Int) (millis : Nat) (button cmd : Command),
      fs.currentState = BAD →
      (fsmTransition fs sv deg millis button cmd).1.currentState = BAD)
    ∧ (∀ (fs : FSMState) (sv : Servo) (ticks : List TickInput),
      fs.currentState = BAD →
      (runTicks (fs, sv) ticks).1.currentState = BAD) := by
  constructor
  · exact fsmTransition_from_bad
  · intro fs sv ticks
    induction ticks generalizing fs sv with
    | nil => intro h; exact h
    | cons t ts ih =>
      intro h
      have hstep := fsmTransition_from_bad fs sv t.deg t.millis t.button t.cmd h
      rcases heq : fsmTransition fs sv t.deg t.millis t.button t.cmd with ⟨fs2, sv2⟩
      rw [heq] at hstep
      show (runTicks (fsmTransition fs sv t.deg t.millis t.button t.cmd) ts).1.currentState = BAD
      rw [heq]
      exact ih fs2 sv2 hstep

/-- Witness for C4: from a concrete `Bad` state, one tick and a two-tick
sequence both remain in `Bad`. -/
theorem bad_state_absorbing_witness :
    (fsmTransition ⟨BAD, 110, 40, 0, NONE⟩ servo0 75 1000 NONE LOCK_CMD).1.currentState = BAD
    ∧ (runTicks (⟨BAD, 110, 40, 0, NONE⟩, servo0)
        [⟨40, 1000, NONE, UNLOCK_CMD⟩, ⟨110, 2000, NONE, LOCK_CMD⟩]).1.currentState = BAD :=
  ⟨bad_state_absorbing.1 ⟨BAD, 110, 40, 0, NONE⟩ servo0 75 1000 NONE LOCK_CMD rfl,
   bad_state_absorbing.2 ⟨BAD, 110, 40, 0, NONE⟩ servo0
     [⟨40, 1000, NONE, UNLOCK_CMD⟩, ⟨110, 2000, NONE, LOCK_CMD⟩] rfl⟩

/-- Counterexample to C3: with the calibration-button flag clear
(`button = NONE`), `fsmTransition` from `CalibrateLock` still advances to
`CalibrateUnlock` and latches `lock_deg ← deg` (77 here), contradicting
the claim that the state stays `CalibrateLock` with `lock_deg` unchanged. -/
theorem calibrate_button_ignored_cex :
    (fsmTransition ⟨CALIBRATE_LOCK, 110, 40, 0, NONE⟩ servo0 77 0 NONE NONE).1.currentState
        = CALIBRATE_UNLOCK
    ∧ (fsmTransition ⟨CALIBRATE_LOCK, 110, 40, 0, NONE⟩ servo0 77 0 NONE NONE).1.lockDeg = 77
    ∧ CALIBRATE_UNLOCK ≠ CALIBRATE_LOCK
    ∧ (77 : Int) ≠ 110
    ∧ (fsmTransition ⟨CALIBRATE_UNLOCK, 77, 40, 0, NONE⟩ servo0 40 0 NONE NONE).1.currentState
        = UNLOCK := by
  refine ⟨rfl, rfl, by decide, by decide, rfl⟩

/-- Claim C3 (amended): in `CalibrateLock` the FSM advances to
`CalibrateUnlock` unconditionally, latching `lock_deg ← deg` — the
calibration-button input is ignored — and symmetrically `CalibrateUnlock`
advances unconditionally to `Unlocked`, latching `unlock_deg ← deg`. -/
theorem calibrate_auto_advance (fs : FSMState) (sv : Servo) (deg : Int) (millis : Nat)
    (button cmd : Command) :
    (fs.currentState = CALIBRATE_LOCK →
      fsmTransition fs sv deg millis button cmd
        = ({ fs with currentState := CALIBRATE_UNLOCK, lockDeg := deg }, sv))
    ∧ (fs.currentState = CALIBRATE_UNLOCK →
      fsmTransition fs sv deg millis button cmd
        = ({ fs with currentState := UNLOCK, unlockDeg := deg }, sv)) := by
  obtain ⟨st, ld, ud, t, c⟩ := fs
  constructor
  · intro h; dsimp only at h; subst h; rfl
  · intro h; dsimp only at h; subst h; rfl

/-- Witness for C3 (amended): a concrete `CalibrateLock` tick with the
button flag clear advances and latches the position. -/
theorem calibrate_auto_advance_witness :
    fsmTransition ⟨CALIBRATE_LOCK, 110, 40, 0, NONE⟩ servo0 95 500 NONE NONE
      = (⟨CALIBRATE_UNLOCK, 95, 40, 0, NONE⟩, servo0) :=
  (calibrate_auto_advance ⟨CALIBRATE_LOCK, 110, 40, 0, NONE⟩ servo0 95 500 NONE NONE).1 rfl

end Doorlock

namespace Doorlock

open State Command Request

/-- Counterexample to C6: with the FSM in `Locked` at the lock position, an
authenticated `POST /lock` causes no transition but is answered with HTTP
200 (body `LOCK`), not the claimed 503. -/
theorem locked_lockreq_cex :
    (fsmTransition ⟨LOCK, 110, 40, 0, NONE⟩ servo0 110 1000 NONE LOCK_CMD).1.currentState = LOCK
    ∧ respondRequest LOCK_REQ
        ((fsmTransition ⟨LOCK, 110, 40, 0, NONE⟩ servo0 110 1000 NONE LOCK_CMD).1.currentState)
        = some (200, "LOCK")
    ∧ (200 : Nat) ≠ 503 := by
  refine ⟨rfl, rfl, by decide⟩

/-- Claim C6 (amended): a valid authenticated `POST /lock` arriving while
the FSM is in `Locked` at the lock position (and not within unlock
tolerance) causes no state transition — the guard to leave `Locked`
requires `cmd = Unlock` — and is answered with HTTP 200 whose body is the
textual state name `LOCK`. -/
theorem locked_lockreq_no_transition (fs : FSMState) (sv : Servo) (deg : Int)
    (millis : Nat) (button : Command)
    (hst : fs.currentState = LOCK)
    (hl : isAtLock fs deg ANGLE_TOLERANCE = true)
    (hu : isAtUnlock fs deg ANGLE_TOLERANCE = false) :
    fsmTransition fs sv deg millis button LOCK_CMD = (fs, sv)
    ∧ respondRequest LOCK_REQ
        ((fsmTransition fs sv deg millis button LOCK_CMD).1.currentState)
        = some (200, "LOCK") := by
  obtain ⟨st, ld, ud, t, c⟩ := fs
  dsimp only at hst
  subst hst
  have heq : fsmTransition ⟨LOCK, ld, ud, t, c⟩ sv deg millis button LOCK_CMD
      = (⟨LOCK, ld, ud, t, c⟩, sv) := by
    dsimp only [fsmTransition]
    rw [if_neg (by simp), if_neg (by simp [hu]), if_neg (by simp [hl])]
  refine ⟨heq, ?_⟩
  rw [heq]
  rfl

/-- Witness for C6 (amended): the concrete wrong-side scenario at
`deg = 110`, `lock_deg = 110`, `unlock_deg = 40`. -/
theorem locked_lockreq_no_transition_witness :
    fsmTransition ⟨LOCK, 110, 40, 0, NONE⟩ servo0 110 1000 NONE LOCK_CMD
      = (⟨LOCK, 110, 40, 0, NONE⟩, servo0)
    ∧ respondRequest LOCK_REQ
        ((fsmTransition ⟨LOCK, 110, 40, 0, NONE⟩ servo0 110 1000 NONE LOCK_CMD).1.currentState)
        = some (200, "LOCK") :=
  locked_lockreq_no_transition ⟨LOCK, 110, 40, 0, NONE⟩ servo0 110 1000 NONE
    rfl (by decide) (by decide)

lemma respondRequest_matrix (st : State) :
    respondRequest LOCK_REQ st
      = some (if st = LOCK ∨ st = BUSY_MOVE then (200 : Nat) else 503, stateToString st)
    ∧ respondRequest UNLOCK_REQ st
      = some (if st = UNLOCK ∨ st = BUSY_MOVE then (200 : Nat) else 503, stateToString st) := by
  cases st <;> exact ⟨by decide, by decide⟩

/-- Claim C7: in a loop iteration, an authenticated `LockReq` is answered
with status 200 iff the post-transition state is `Locked` or `BusyMove`
and 503 otherwise, the body always being the textual name of the
post-transition state; symmetrically for `UnlockReq` with `Unlocked` or
`BusyMove`. -/
theorem respond_post_transition_matrix (fs : FSMState) (sv : Servo) (deg : Int)
    (millis : Nat) :
    (loopTick fs sv LOCK_REQ deg millis).2
      = some (if (loopTick fs sv LOCK_REQ deg millis).1.1.currentState = LOCK
                ∨ (loopTick fs sv LOCK_REQ deg millis).1.1.currentState = BUSY_MOVE
              then (200 : Nat) else 503,
              stateToString ((loopTick fs sv LOCK_REQ deg millis).1.1.currentState))
    ∧ (loopTick fs sv UNLOCK_REQ deg millis).2
      = some (if (loopTick fs sv UNLOCK_REQ deg millis).1.1.currentState = UNLOCK
                ∨ (loopTick fs sv UNLOCK_REQ deg millis).1.1.currentState = BUSY_MOVE
              then (200 : Nat) else 503,
              stateToString ((loopTick fs sv UNLOCK_REQ deg millis).1.1.currentState)) :=
  ⟨(respondRequest_matrix _).1, (respondRequest_matrix _).2⟩

/-- Claim C8: `verifyAuthentication` persists the parsed nonce as the new
`N_last` exactly when it returns true, and leaves the persisted `N_last`
unchanged on every failing path. -/
theorem verifyAuthentication_persists_iff_success (hmac : String → List Nat)
    (nonce signature : String) (last : Nat) :
    (verifyAuthentication hmac nonce signature last).2
      = (if (verifyAuthentication hmac nonce signature last).1
         then requestTimestamp nonce else last) := by
  by_cases h1 : requestTimestamp nonce = 0 ∧ nonce ≠ "0"
  · simp [verifyAuthentication, h1]
  · by_cases h2 : requestTimestamp nonce ≤ max 5 last - 5
    · simp [verifyAuthentication, h1, h2]
    · rcases h : hexToBytes signature 32 with _ | r
      · simp [verifyAuthentication, h1, h2, h]
      · by_cases h3 : constantTimeCompare (hmac nonce) r = true
        · simp [verifyAuthentication, h1, h2, h, h3]
        · simp [verifyAuthentication, h1, h2, h, h3]

end Doorlock

namespace Doorlock

open State Command Request

/-- Counterexample to C1: with `N_last = 1000` the sliding floor is
`max(5,1000) - 5 = 995`, and a nonce of exactly 995 IS rejected by the
replay check (the source predicate is `<=`, not `<`), even with a matching
signature. -/
theorem replay_floor_boundary_cex :
    requestTimestamp "995" = 995
    ∧ verifyAuthentication hmacZeros "995" zeroSignature 1000 = (false, 1000)
    ∧ ¬(995 < max 5 1000 - 5) := by
  refine ⟨by decide, by decide, by decide⟩

/-- Claim C1 (amended): when the nonce parses and the signature is valid,
the replay-protection step of `verifyAuthentication` rejects the request
if and only if `nonce ≤ max(REPLAY_WINDOW, N_last) − REPLAY_WINDOW` (with
`REPLAY_WINDOW = 5`); in particular a nonce exactly equal to the sliding
floor is rejected. -/
theorem verifyAuthentication_replay_reject_iff (hmac : String → List Nat)
    (nonce signature : String) (last : Nat) (r : List Nat)
    (hp : ¬(requestTimestamp nonce = 0 ∧ nonce ≠ "0"))
    (hr : hexToBytes signature 32 = some r)
    (hc : constantTimeCompare (hmac nonce) r = true) :
    (verifyAuthentication hmac nonce signature last).1 = false
      ↔ requestTimestamp nonce ≤ max 5 last - 5 := by
  by_cases h2 : requestTimestamp nonce ≤ max 5 last - 5
  · simp [verifyAuthentication, hp, h2]
  · simp [verifyAuthentication, hp, h2, hr, hc]

/-- Witness for C1 (amended): with `N_last = 1000` and a valid signature,
nonce 995 (at the floor) is rejected and nonce 996 is admitted. -/
theorem verifyAuthentication_replay_reject_iff_witness :
    (verifyAuthentication hmacZeros "995" zeroSignature 1000).1 = false
    ∧ (verifyAuthentication hmacZeros "996" zeroSignature 1000).1 ≠ false := by
  constructor
  · exact (verifyAuthentication_replay_reject_iff hmacZeros "995" zeroSignature 1000
      (List.replicate 32 0) (by decide) (by decide) (by decide)).mpr (by decide)
  · intro hfalse
    exact absurd ((verifyAuthentication_replay_reject_iff hmacZeros "996" zeroSignature 1000
      (List.replicate 32 0) (by decide) (by decide) (by decide)).mp hfalse) (by decide)

/-- Counterexample to C2: in `BusyMove` with `current_command = Unlock`,
`unlock_deg = 50`, no timeout, and `deg = 53` — within the claimed default
tolerance `ε = 5` — the FSM stays in `BusyMove` instead of moving to
`Unlocked` (completion actually uses tolerance 0). -/
theorem busy_move_tolerance_cex :
    (fsmTransition ⟨BUSY_MOVE, 120, 50, 1000, UNLOCK_CMD⟩ servo0 53 2000 NONE NONE).1.currentState
        = BUSY_MOVE
    ∧ (53 : Int) ≤ 50 + ANGLE_TOLERANCE
    ∧ wsub 2000 1000 ≤ TOL
    ∧ BUSY_MOVE ≠ UNLOCK := by
  refine ⟨by decide, by decide, by decide, by decide⟩

/-- Claim C2 (amended): in `BusyMove` with `current_command = Unlock` and
no timeout, the FSM moves to `Unlocked` exactly when `deg ≤ unlock_deg`
(tolerance 0, not the default ε), clearing `current_command` and detaching
the actuator; symmetrically with `current_command = Lock` it moves to
`Locked` exactly when `deg ≥ lock_deg`. -/
theorem busy_move_completion_strict (fs : FSMState) (sv : Servo) (deg : Int)
    (millis : Nat) (button cmd : Command)
    (hst : fs.currentState = BUSY_MOVE)
    (ht : wsub millis fs.startTime ≤ TOL) :
    (fs.curCmd = UNLOCK_CMD →
      (((fsmTransition fs sv deg millis button cmd).1.currentState = UNLOCK)
          ↔ deg ≤ fs.unlockDeg)
      ∧ (deg ≤ fs.unlockDeg →
          (fsmTransition fs sv deg millis button cmd).1.curCmd = NONE
          ∧ (fsmTransition fs sv deg millis button cmd).2.attached = false))
    ∧ (fs.curCmd = LOCK_CMD →
      (((fsmTransition fs sv deg millis button cmd).1.currentState = LOCK)
          ↔ fs.lockDeg ≤ deg)
      ∧ (fs.lockDeg ≤ deg →
          (fsmTransition fs sv deg millis button cmd).1.curCmd = NONE
          ∧ (fsmTransition fs sv deg millis button cmd).2.attached = false)) := by
  obtain ⟨st, ld, ud, t, c⟩ := fs
  dsimp only at hst ht ⊢
  subst hst
  have hto : ¬ wsub millis t > TOL := by omega
  constructor
  · intro hc
    subst hc
    dsimp only [fsmTransition]
    rw [if_neg hto]
    by_cases hdeg : deg ≤ ud
    · rw [if_pos ⟨rfl, by simp only [isAtUnlock, decide_eq_true_eq]; omega⟩]
      simp [hdeg, Servo.detach]
    · rw [if_neg (by simp only [isAtUnlock, not_and, decide_eq_true_eq]
                     intro
                     omega),
          if_neg (by simp)]
      simp [hdeg]
  · intro hc
    subst hc
    dsimp only [fsmTransition]
    rw [if_neg hto, if_neg (by simp)]
    by_cases hdeg : ld ≤ deg
    · rw [if_pos ⟨rfl, by simp only [isAtLock, ge_iff_le, decide_eq_true_eq]; omega⟩]
      simp [hdeg, Servo.detach]
    · rw [if_neg (by simp only [isAtLock, ge_iff_le, not_and, decide_eq_true_eq]
                     intro
                     omega)]
      simp [hdeg]

/-- Witness for C2 (amended): a concrete `BusyMove` unlock at exactly
`deg = unlock_deg = 50` completes to `Unlocked`, clears the command and
detaches the actuator. -/
theorem busy_move_completion_strict_witness :
    (((fsmTransition ⟨BUSY_MOVE, 120, 50, 1000, UNLOCK_CMD⟩ servo0 50 2000 NONE NONE).1.currentState
        = UNLOCK) ↔ (50 : Int) ≤ 50)
    ∧ ((50 : Int) ≤ 50 →
        (fsmTransition ⟨BUSY_MOVE, 120, 50, 1000, UNLOCK_CMD⟩ servo0 50 2000 NONE NONE).1.curCmd
          = NONE
        ∧ (fsmTransition ⟨BUSY_MOVE, 120, 50, 1000, UNLOCK_CMD⟩ servo0 50 2000 NONE NONE).2.attached
          = false) :=
  (busy_move_completion_strict ⟨BUSY_MOVE, 120, 50, 1000, UNLOCK_CMD⟩ servo0 50 2000 NONE NONE
    rfl (by decide)).1 rfl

end Doorlock

namespace Doorlock

open State Command Request

/-- The command-clearing invariant of the FSM: outside `BusyMove` and `Bad`
the current command is `None`. -/
def cmdInvariant (fs : FSMState) : Prop :=
  fs.currentState = BUSY_MOVE ∨ fs.currentState = BAD ∨ fs.curCmd = NONE

lemma cmdInvariant_step (fs : FSMState) (sv : Servo) (deg : Int) (millis : Nat)
    (button cmd : Command) (h : cmdInvariant fs) :
    cmdInvariant (fsmTransition fs sv deg millis button cmd).1 := by
  obtain ⟨st, ld, ud, t, c⟩ := fs
  cases st <;>
    simp only [cmdInvariant] at h ⊢ <;>
    dsimp only [fsmTransition] <;>
    (try split_ifs) <;>
    simp_all

/-- Counterexample to C5: the `BusyMove → Bad` timeout transition does not
clear `current_command`: after timing out with `current_command = Lock`,
the state is `Bad` (not `BusyMove`) yet `current_command` is still `Lock`
(exactly what unit test 10 of the repository expects). -/
theorem cmd_retained_after_timeout_cex :
    (fsmTransition ⟨BUSY_MOVE, 120, 50, 1000, LOCK_CMD⟩ servo0 75 7000 NONE NONE).1.currentState
        = BAD
    ∧ (fsmTransition ⟨BUSY_MOVE, 120, 50, 1000, LOCK_CMD⟩ servo0 75 7000 NONE NONE).1.curCmd
        = LOCK_CMD
    ∧ BAD ≠ BUSY_MOVE
    ∧ LOCK_CMD ≠ NONE := by
  refine ⟨by decide, by decide, by decide, by decide⟩

/-- Claim C5 (amended): after every `fsmTransition` call from a state
satisfying the command-clearing invariant, if the resulting state is
neither `BusyMove` nor `Bad` then `current_command = None`; the invariant
is preserved by every transition and holds in every state reachable from
the initial state (after the `BusyMove → Bad` timeout the command is
retained, so `Bad` must be excepted). -/
theorem cmd_none_outside_busy :
    (∀ (fs : FSMState) (sv : Servo) (deg : Int) (millis : Nat) (button cmd : Command),
        cmdInvariant fs → cmdInvariant (fsmTransition fs sv deg millis button cmd).1)
    ∧ (∀ (fs : FSMState) (sv : Servo) (deg : Int) (millis : Nat) (button cmd : Command),
        cmdInvariant fs →
        (fsmTransition fs sv deg millis button cmd).1.currentState ≠ BUSY_MOVE →
        (fsmTransition fs sv deg millis button cmd).1.currentState ≠ BAD →
        (fsmTransition fs sv deg millis button cmd).1.curCmd = NONE)
    ∧ (∀ (sv : Servo) (ticks : List TickInput),
        cmdInvariant (runTicks (initialFsmState, sv) ticks).1) := by
  have hrun : ∀ (ticks : List TickInput) (fs : FSMState) (sv : Servo),
      cmdInvariant fs → cmdInvariant (runTicks (fs, sv) ticks).1 := by
    intro ticks
    induction ticks with
    | nil => intro fs sv h; exact h
    | cons t ts ih =>
      intro fs sv h
      have hstep := cmdInvariant_step fs sv t.deg t.millis t.button t.cmd h
      rcases heq : fsmTransition fs sv t.deg t.millis t.button t.cmd with ⟨fs2, sv2⟩
      rw [heq] at hstep
      show cmdInvariant (runTicks (fsmTransition fs sv t.deg t.millis t.button t.cmd) ts).1
      rw [heq]
      exact ih fs2 sv2 hstep
  refine ⟨cmdInvariant_step, ?_, ?_⟩
  · intro fs sv deg millis button cmd h hbm hbad
    rcases cmdInvariant_step fs sv deg millis button cmd h with h1 | h1 | h1
    · exact absurd h1 hbm
    · exact absurd h1 hbad
    · exact h1
  · intro sv ticks
    exact hrun ticks initialFsmState sv (Or.inr (Or.inr rfl))

/-- Witness for C5 (amended): the invariant holds after a concrete tick
from the initial state, and a completed `BusyMove` unlock has its command
cleared. -/
theorem cmd_none_outside_busy_witness :
    cmdInvariant (fsmTransition initialFsmState servo0 75 1000 NONE NONE).1
    ∧ (fsmTransition ⟨BUSY_MOVE, 120, 50, 1000, UNLOCK_CMD⟩ servo0 50 2000 NONE NONE).1.curCmd
        = NONE :=
  ⟨cmd_none_outside_busy.1 initialFsmState servo0 75 1000 NONE NONE (Or.inr (Or.inr rfl)),
   cmd_none_outside_busy.2.1 ⟨BUSY_MOVE, 120, 50, 1000, UNLOCK_CMD⟩ servo0 50 2000 NONE NONE
     (Or.inl rfl) (by decide) (by decide)⟩

/-- Claim C9: evaluation of the position filter at a concrete raw-reading
stream.  `analogReadStable` in `src/server/doorlock/utils.h` takes NINE
raw readings (not five) and returns the mean of the 2nd-4th smallest, so
on the stream 1,2,3,4,5,0,0,0,0 it returns 0, while the documented
five-sample drop-extremes-average-middle-three algorithm (the
`src/doorlock/utils.h` variant) returns 3. -/
theorem analogReadStable_nine_samples :
    analogReadStable (fun i => [1, 2, 3, 4, 5, 0, 0, 0, 0].getD i 0) = 0
    ∧ analogReadStable5 (fun i => [1, 2, 3, 4, 5, 0, 0, 0, 0].getD i 0) = 3
    ∧ (0 : Int) ≠ 3 := by
  refine ⟨by decide, by decide, by decide⟩

/-- Counterexample to C10: the nonce string "123abc" (trailing non-digit
characters) is NOT rejected: `toInt` parses it as 123 and, with a valid
signature, the whole authentication succeeds; likewise "-5" converts to
the nonzero unsigned value 4294967291 and passes the parsing step. -/
theorem parse_trailing_garbage_cex :
    verifyAuthentication hmacZeros "123abc" zeroSignature 5 = (true, 123)
    ∧ requestTimestamp "-5" = 4294967291
    ∧ (4294967291 : Nat) ≠ 0 := by
  refine ⟨by decide, by decide, by decide⟩

/-- Claim C10 (amended): the parsing step of `verifyAuthentication`
rejects exactly those nonce strings whose `toInt` value (converted to
`unsigned long`) is 0 and that are not literally "0"; every nonce string
with a nonzero parsed value — including "123abc" (parsed as 123) and "-5"
(converted to 4294967291) — passes the parsing step and can authenticate
successfully with a matching signature. -/
theorem parse_step_characterization :
    (∀ (hmac : String → List Nat) (nonce signature : String) (last : Nat),
        requestTimestamp nonce = 0 → nonce ≠ "0" →
        verifyAuthentication hmac nonce signature last = (false, last))
    ∧ (∀ nonce : String, requestTimestamp nonce ≠ 0 →
        verifyAuthentication hmacZeros nonce zeroSignature 0
          = (true, requestTimestamp nonce)) := by
  constructor
  · intro hmac nonce signature last h0 hne
    simp [verifyAuthentication, h0, hne]
  · intro nonce h0
    have hz : hexToBytes zeroSignature 32 = some (List.replicate 32 0) := by decide
    have hrepl : hmacZeros nonce = List.replicate 32 0 := rfl
    have hcmp : constantTimeCompare (hmacZeros nonce) (List.replicate 32 0) = true := by
      rw [hrepl]; decide
    have h1 : ¬(requestTimestamp nonce = 0 ∧ nonce ≠ "0") := fun hx => h0 hx.1
    have h2 : ¬(requestTimestamp nonce ≤ max 5 0 - 5) := by omega
    unfold verifyAuthentication
    rw [if_neg h1, if_neg h2]
    dsimp only
    rw [hz]
    dsimp only
    rw [if_pos hcmp]

/-- Witness for C10 (amended): "abc" parses to 0 and is rejected with the
stored nonce unchanged; "123abc" parses to 123 and authenticates. -/
theorem parse_step_characterization_witness :
    verifyAuthentication hmacZeros "abc" zeroSignature 7 = (false, 7)
    ∧ verifyAuthentication hmacZeros "123abc" zeroSignature 0 = (true, 123) :=
  ⟨parse_step_characterization.1 hmacZeros "abc" zeroSignature 7 (by decide) (by decide),
   parse_step_characterization.2 "123abc" (by decide)⟩

end Doorlock
